import Mathlib

/-!
Shallow embedding of the draggable-resizable-container core
(`src/core/ContainerManager.ts`, `src/utils/helpers.ts`,
`src/plugins/StatePersistencePlugin.ts` (SnappingPlugin),
`src/plugins/EdgeDockingPlugin.ts`).

Numbers are modelled as rationals; the JavaScript `Infinity` upper bound of a
clamp is modelled as an absent (`Option.none`) upper bound.
-/

namespace DRC

/-- Container movement modes (`src/core/types.ts`, `MovementMode`). -/
inductive MovementMode where
  | smooth
  | pinned
deriving DecidableEq, Repr

/-- Container movement directions (`src/core/types.ts`, `DirectionMode`). -/
inductive DirectionMode where
  | all
  | horizontal
  | vertical
deriving DecidableEq, Repr

/-- Resize direction types (`src/core/types.ts`, `ResizeDirection`). -/
inductive ResizeDirection where
  | n | s | e | w | ne | nw | se | sw
deriving DecidableEq, Repr

/-- Container position and dimensions (`src/core/types.ts`, `ContainerState`). -/
@[ext] structure ContainerState where
  x : ℚ
  y : ℚ
  width : ℚ
  height : ℚ
deriving DecidableEq, Repr

/-- Container boundaries configuration (`src/core/types.ts`, `Boundaries`);
`none` models an absent (`undefined`) field. -/
structure Boundaries where
  minWidth : Option ℚ := none
  minHeight : Option ℚ := none
  maxWidth : Option ℚ := none
  maxHeight : Option ℚ := none
deriving DecidableEq, Repr

/-- The configuration fields of `ContainerConfig` that the state/constraint
pipeline reads (`src/core/types.ts`). -/
structure ContainerConfig where
  mode : MovementMode
  boundaries : Boundaries
  draggingDirection : DirectionMode
  constrainToViewport : Bool
  constrainToParent : Bool
deriving DecidableEq, Repr

/-- DOM environment of one manager: viewport dimensions
(`getViewportDimensions`) and the parent element's measured bounding
rectangle (`parentElement.getBoundingClientRect()`), `none` when the
container has no parent element. -/
structure Env where
  viewportWidth : ℚ
  viewportHeight : ℚ
  parent : Option (ℚ × ℚ)
deriving DecidableEq, Repr

/-- `clamp(value, min, max) = Math.min(Math.max(value, min), max)`
(`src/utils/helpers.ts`). -/
def clamp (value min max : ℚ) : ℚ :=
  Min.min (Max.max value min) max

/-- JavaScript `a || b` on an optional numeric field: `undefined`/`null` and
`0` are falsy and fall through to the default. -/
def jsOr (o : Option ℚ) (d : ℚ) : ℚ :=
  match o with
  | none => d
  | some v => if v = 0 then d else v

/-- JavaScript `a || Infinity` on an optional numeric field: the result is
`none` (no upper bound) when the field is absent or `0`. -/
def jsOrInf (o : Option ℚ) : Option ℚ :=
  match o with
  | none => none
  | some v => if v = 0 then none else some v

/-- `clamp` against a lower bound and an optional (possibly infinite) upper
bound: `clamp(v, lo, hi || Infinity)`. -/
def clampO (value lo : ℚ) (hi : Option ℚ) : ℚ :=
  match hi with
  | none => Max.max value lo
  | some h => clamp value lo h

/-- Effective lower width bound used by the resolver:
`boundaries.minWidth || 10`. -/
def effMinWidth (cfg : ContainerConfig) : ℚ := jsOr cfg.boundaries.minWidth 10

/-- Effective lower height bound used by the resolver:
`boundaries.minHeight || 10`. -/
def effMinHeight (cfg : ContainerConfig) : ℚ := jsOr cfg.boundaries.minHeight 10

/-- Effective upper width bound used by the resolver:
`boundaries.maxWidth || Infinity` (`none` = unbounded). -/
def effMaxWidth (cfg : ContainerConfig) : Option ℚ := jsOrInf cfg.boundaries.maxWidth

/-- Effective upper height bound used by the resolver:
`boundaries.maxHeight || Infinity` (`none` = unbounded). -/
def effMaxHeight (cfg : ContainerConfig) : Option ℚ := jsOrInf cfg.boundaries.maxHeight

/-- `shouldConstrainToViewport(): !constrainToParent || constrainToViewport`
(`ContainerManager.shouldConstrainToViewport`). -/
def shouldConstrainToViewport (cfg : ContainerConfig) : Bool :=
  !cfg.constrainToParent || cfg.constrainToViewport

/-- `ContainerManager.constrainToParent(state)`: returns the state unchanged
when there is no parent element or the parent's measured rectangle has zero
width or height; otherwise clamps position to `[0, max(0, parentDim - size)]`
and size to `[0, parentDim - pos]`. -/
def constrainToParentStep (env : Env) (state : ContainerState) : ContainerState :=
  match env.parent with
  | none => state
  | some (pw, ph) =>
    if pw = 0 ∨ ph = 0 then state
    else
      let maxX := Max.max 0 (pw - state.width)
      let maxY := Max.max 0 (ph - state.height)
      let maxW := pw - state.x
      let maxH := ph - state.y
      { x := clamp state.x 0 maxX
        y := clamp state.y 0 maxY
        width := clamp state.width 0 maxW
        height := clamp state.height 0 maxH }

/-- The derived constrained state (`ContainerManager.constrainedState`
computed): boundary clamps on width/height, then the viewport position clamp
when `shouldConstrainToViewport()`, then the parent step when
`constrainToParent` is set. -/
def resolve (cfg : ContainerConfig) (env : Env) (state : ContainerState) : ContainerState :=
  let w := clampO state.width (effMinWidth cfg) (effMaxWidth cfg)
  let h := clampO state.height (effMinHeight cfg) (effMaxHeight cfg)
  let s1 : ContainerState := { state with width := w, height := h }
  let s2 : ContainerState :=
    if shouldConstrainToViewport cfg then
      { s1 with
        x := clamp state.x 0 (env.viewportWidth - w)
        y := clamp state.y 0 (env.viewportHeight - h) }
    else s1
  if cfg.constrainToParent then constrainToParentStep env s2 else s2

/-! ### Config construction (`deepMerge` of the defaults with the user config,
`ContainerManager` constructor) -/

/-- A partially specified `Boundaries` object handed to the constructor;
`none` = key absent from the user object. -/
structure UserBoundaries where
  minWidth : Option ℚ := none
  minHeight : Option ℚ := none
  maxWidth : Option ℚ := none
  maxHeight : Option ℚ := none
deriving DecidableEq, Repr

/-- A partially specified `ContainerConfig` handed to the constructor. -/
structure UserConfig where
  mode : Option MovementMode := none
  boundaries : Option UserBoundaries := none
  draggingDirection : Option DirectionMode := none
  constrainToViewport : Option Bool := none
  constrainToParent : Option Bool := none
deriving DecidableEq, Repr

/-- `deepMerge` on one optional field: a defined source value wins, an absent
one keeps the target value (`mergeProperty`, `src/utils/helpers.ts`). -/
def mergeField {α : Type} (target : Option α) (source : Option α) : Option α :=
  match source with
  | some v => some v
  | none => target

/-- `deepMerge` on the nested `boundaries` object: recursive per-key merge of
the defaults `{minWidth: 300, minHeight: 45}` with the user object. -/
def mergeBoundaries (target : Boundaries) (source : Option UserBoundaries) : Boundaries :=
  match source with
  | none => target
  | some sb =>
    { minWidth := mergeField target.minWidth sb.minWidth
      minHeight := mergeField target.minHeight sb.minHeight
      maxWidth := mergeField target.maxWidth sb.maxWidth
      maxHeight := mergeField target.maxHeight sb.maxHeight }

/-- The constructor's `deepMerge` of the default config with the user config
(`ContainerManager` constructor, defaults object at its top). -/
def mkConfig (user : UserConfig) : ContainerConfig :=
  { mode := user.mode.getD .smooth
    boundaries := mergeBoundaries { minWidth := some 300, minHeight := some 45 } user.boundaries
    draggingDirection := user.draggingDirection.getD .all
    constrainToViewport := user.constrainToViewport.getD false
    constrainToParent := user.constrainToParent.getD false }

/-! ### Manager state model -/

/-- The mutable per-manager fields the state/interaction pipeline touches:
the raw reactive state (`reactiveState`), the gesture bookkeeping
(`isDragging`, `startX/Y`, `startState`), whether document-level drag
move/end listeners are attached, the installed-plugin constructor names, and
whether the default drag-start listeners were bound on the drag handle. -/
structure Manager where
  config : ContainerConfig
  raw : ContainerState
  mode : MovementMode
  draggingDirection : DirectionMode
  isDragging : Bool
  startX : ℚ
  startY : ℚ
  startState : ContainerState
  docListeners : Bool
  installedPlugins : List String
  defaultDragBound : Bool
deriving DecidableEq, Repr

/-- `ContainerManager.getState()`: returns the four raw reactive fields. -/
def getState (m : Manager) : ContainerState := m.raw

/-- A partial state passed to `setState`. -/
structure StatePatch where
  x : Option ℚ := none
  y : Option ℚ := none
  width : Option ℚ := none
  height : Option ℚ := none
deriving DecidableEq, Repr

/-- `ContainerManager.setState(state)`: writes each defined field into the
raw reactive state (constraints are applied downstream by the computed
`constrainedState`, not here). -/
def setState (m : Manager) (p : StatePatch) : Manager :=
  { m with raw :=
    { height := p.height.getD m.raw.height
      width := p.width.getD m.raw.width
      x := p.x.getD m.raw.x
      y := p.y.getD m.raw.y } }

/-- The manager's derived constrained state (the value the `domUpdateEffect`
writes to the element's style and emits on `stateChange`). -/
def constrainedState (env : Env) (m : Manager) : ContainerState :=
  resolve m.config env m.raw

/-- `ContainerManager.hasPluginByName(name)`: checks the installed plugins'
constructor names. -/
def hasPluginByName (m : Manager) (pluginName : String) : Bool :=
  m.installedPlugins.any (fun n => n = pluginName)

/-- `ContainerManager.bindEvents()`: binds the default drag-start listeners
(`mousedown`/`touchstart` on the drag handle) unless a plugin named
`SnappingPlugin` is installed at that moment; an existing binding is never
removed. -/
def bindEvents (m : Manager) : Manager :=
  if hasPluginByName m ("SnappingPlugin") then m
  else { m with defaultDragBound := true }

/-- The `ContainerManager` constructor: merges the config, seeds the raw
reactive state from the DOM-measured state, and calls `bindEvents()` with the
(necessarily empty) installed-plugin set. -/
def mkManager (domState : ContainerState) (user : UserConfig) : Manager :=
  let cfg := mkConfig user
  bindEvents
    { config := cfg
      raw := domState
      mode := cfg.mode
      draggingDirection := cfg.draggingDirection
      isDragging := false
      startX := 0
      startY := 0
      startState := domState
      docListeners := false
      installedPlugins := []
      defaultDragBound := false }

/-- `ContainerManager.use(plugin)`: skips an already-installed plugin,
otherwise runs `plugin.install` (which for the built-in plugins never touches
the default drag-handle binding) and records it. -/
def usePlugin (m : Manager) (pluginName : String) : Manager :=
  if hasPluginByName m pluginName then m
  else { m with installedPlugins := m.installedPlugins ++ [pluginName] }

/-! ### Drag-start handler and its middleware -/

/-- The `dragStart` validation middleware installed by
`setupEventMiddleware()`: throws when the mode is `pinned`. -/
def dragStartMiddleware (mode : MovementMode) : Except String Unit :=
  if mode = .pinned then .error ("Cannot drag in pinned mode") else .ok ()

/-- Outcome of invoking `onDragStart`: the manager afterwards, the lifecycle
events that reached subscribers, and an error if one escaped the handler. -/
structure DragStartResult where
  manager : Manager
  emitted : List String
  error : Option String
deriving DecidableEq, Repr

/-- `ContainerManager.onDragStart(e)`: returns immediately in `pinned` mode;
otherwise records the gesture start, emits `dragStart` through the middleware
chain, and attaches the document-level move/end listeners. -/
def onDragStart (m : Manager) (clientX clientY : ℚ) : DragStartResult :=
  if m.mode = .pinned then
    { manager := m, emitted := [], error := none }
  else
    let m1 : Manager :=
      { m with
        isDragging := true
        startX := clientX
        startY := clientY
        startState := getState m }
    match dragStartMiddleware m1.mode with
    | .error e => { manager := m1, emitted := [], error := some e }
    | .ok _ =>
      { manager := { m1 with docListeners := true }
        emitted := ["dragStart"]
        error := none }

/-- `ContainerManager.calculateResizeState(deltaX, deltaY, direction)`:
the per-direction pixel-delta-to-state-delta mapping applied to the gesture's
start snapshot. -/
def calculateResizeState (startState : ContainerState) (deltaX deltaY : ℚ)
    (direction : ResizeDirection) : ContainerState :=
  match direction with
  | .e => { startState with width := startState.width + deltaX }
  | .w => { startState with
            width := startState.width - deltaX
            x := startState.x + deltaX }
  | .n => { startState with
            height := startState.height - deltaY
            y := startState.y + deltaY }
  | .s => { startState with height := startState.height + deltaY }
  | .ne => { startState with
             width := startState.width + deltaX
             height := startState.height - deltaY
             y := startState.y + deltaY }
  | .nw => { startState with
             width := startState.width - deltaX
             height := startState.height - deltaY
             x := startState.x + deltaX
             y := startState.y + deltaY }
  | .se => { startState with
             width := startState.width + deltaX
             height := startState.height + deltaY }
  | .sw => { startState with
             width := startState.width - deltaX
             height := startState.height + deltaY
             x := startState.x + deltaX }

/-! ### SnappingPlugin (`src/plugins/StatePersistencePlugin.ts`) -/

/-- JavaScript `Math.round`: rounds to the nearest integer, halves toward
positive infinity. -/
def jsRound (q : ℚ) : ℤ := ⌊q + 1 / 2⌋

/-- `SnappingPlugin.snapToGrid(value, step) = Math.round(value / step) * step`. -/
def snapToGrid (value step : ℚ) : ℚ := (jsRound (value / step) : ℚ) * step

/-- `SnappingPlugin.applySnapping(deltaX, deltaY)`: snaps both axis deltas to
the configured step. -/
def applySnapping (deltaX deltaY step : ℚ) : ℚ × ℚ :=
  (snapToGrid deltaX step, snapToGrid deltaY step)

/-- `ContainerManager.directionResolver(x, y)`: locks one pointer axis to the
gesture start according to the dragging-direction mode. -/
def directionResolver (dirMode : DirectionMode) (startX startY x y : ℚ) : ℚ × ℚ :=
  ( if dirMode = .vertical then startX else x,
    if dirMode = .horizontal then startY else y )

/-- `SnappingPlugin.constrainToViewport(state)` (mutates the position in
place): `x = max(0, min(x, vw - width))`, analogously for `y`. -/
def snapViewportClamp (vw vh : ℚ) (s : ContainerState) : ContainerState :=
  { s with
    x := Max.max 0 (Min.min s.x (vw - s.width))
    y := Max.max 0 (Min.min s.y (vh - s.height)) }

/-- `SnappingPlugin.onDragMove(e)`: resolves the pointer position through the
manager's `directionResolver`, snaps the deltas when snapping is enabled,
builds `start + delta`, optionally applies the plugin's own viewport clamp
(when the manager config has `constrainToViewport`), and writes the result
to the manager's state. -/
def snapDragMove (startState : ContainerState) (startX startY clientX clientY : ℚ)
    (dirMode : DirectionMode) (enabled : Bool) (step : ℚ)
    (constrainVp : Bool) (vw vh : ℚ) : ContainerState :=
  let r := directionResolver dirMode startX startY clientX clientY
  let rawDx := r.1 - startX
  let rawDy := r.2 - startY
  let d := if enabled then applySnapping rawDx rawDy step else (rawDx, rawDy)
  let newState : ContainerState :=
    { x := startState.x + d.1
      y := startState.y + d.2
      width := startState.width
      height := startState.height }
  if constrainVp then snapViewportClamp vw vh newState else newState

/-! ### EdgeDockingPlugin shared registry (`src/plugins/EdgeDockingPlugin.ts`,
the static `dockedContainers: Map<DockEdge, ContainerManagerInterface>`) -/

/-- A dock edge (`DockEdge`). -/
inductive DockEdge where
  | top | right | bottom | left
deriving DecidableEq, Repr

/-- The shared docked-containers registry, modelled as a JavaScript `Map`
in insertion order: an association list from edge to a manager identifier. -/
abbrev Registry := List (DockEdge × ℕ)

/-- `dockedContainers.has(edge)`. -/
def regHas (r : Registry) (e : DockEdge) : Bool :=
  r.any (fun p => p.1 = e)

/-- `dockedContainers.get(edge)`. -/
def regGet (r : Registry) (e : DockEdge) : Option ℕ :=
  (r.find? (fun p => p.1 = e)).map Prod.snd

/-- `dockedContainers.set(edge, manager)`: replaces the value of an existing
key in place, otherwise appends the new entry. -/
def regSet (r : Registry) (e : DockEdge) (mgr : ℕ) : Registry :=
  if regHas r e then r.map (fun p => if p.1 = e then (e, mgr) else p)
  else r ++ [(e, mgr)]

/-- `dockedContainers.delete(edge)`. -/
def regDelete (r : Registry) (e : DockEdge) : Registry :=
  r.filter (fun p => p.1 ≠ e)

/-- The edge-selection loop inside `tryDock`: walk the edges in
`Object.entries` order, keeping the latest edge whose distance is within the
running minimum and whose registry slot is free. -/
def pickEdgeAux (r : Registry) (dist : DockEdge → ℚ) :
    List DockEdge → Option DockEdge → ℚ → Option DockEdge
  | [], best, _ => best
  | e :: rest, best, minD =>
    if dist e ≤ minD ∧ regHas r e = false then
      pickEdgeAux r dist rest (some e) (dist e)
    else
      pickEdgeAux r dist rest best minD

/-- `EdgeDockingPlugin.tryDock`'s closest-available-edge search, starting
from the configured `edgeThreshold`. -/
def pickEdge (r : Registry) (dist : DockEdge → ℚ) (threshold : ℚ) : Option DockEdge :=
  pickEdgeAux r dist [.top, .right, .bottom, .left] none threshold

/-- `EdgeDockingPlugin.tryDock()` on the shared registry: dock the manager to
the closest available edge, if any (`dock(edge)` performs
`dockedContainers.set(edge, this.manager)`). -/
def tryDock (r : Registry) (dist : DockEdge → ℚ) (threshold : ℚ) (mgr : ℕ) : Registry :=
  match pickEdge r dist threshold with
  | some e => regSet r e mgr
  | none => r

/-- `EdgeDockingPlugin.undock(edge)` on the shared registry: removes the
edge's entry when it is held by the calling plugin's manager. -/
def undock (r : Registry) (e : DockEdge) (mgr : ℕ) : Registry :=
  if regGet r e = some mgr then regDelete r e else r

/-- Registry states reachable from the initial empty shared map through the
plugin's dock/undock operations. -/
inductive ReachableReg : Registry → Prop where
  | init : ReachableReg []
  | dock (dist : DockEdge → ℚ) (threshold : ℚ) (mgr : ℕ) {r : Registry} :
      ReachableReg r → ReachableReg (tryDock r dist threshold mgr)
  | undock (e : DockEdge) (mgr : ℕ) {r : Registry} :
      ReachableReg r → ReachableReg (undock r e mgr)

/-- Each edge occurs at most once among the registry's keys. -/
def keysNodup (r : Registry) : Prop := (r.map Prod.fst).Nodup

/-! ### Concrete fixtures used by the claim counterexamples and witnesses -/

/-- A large viewport with no parent element. -/
def bigEnv : Env := { viewportWidth := 1000, viewportHeight := 1000, parent := none }

/-- The boundaries of the C1 scenario:
`{minWidth: 200, minHeight: 150, maxWidth: 500, maxHeight: 400}`. -/
def c1User : UserConfig :=
  { boundaries := some
      { minWidth := some 200, minHeight := some 150,
        maxWidth := some 500, maxHeight := some 400 } }

/-- A DOM-measured initial state for constructed managers. -/
def initialDomState : ContainerState := { x := 0, y := 0, width := 300, height := 300 }

/-- The C1 scenario's manager after `setState({width: 50, height: 50})`. -/
def c1Manager : Manager :=
  setState (mkManager initialDomState c1User) { width := some 50, height := some 50 }

/-- A config whose `boundaries.maxWidth` is the number `0`. -/
def maxWidthZeroCfg : ContainerConfig :=
  mkConfig { boundaries := some { maxWidth := some 0 } }

/-- A raw state wider than `maxWidth = 0` and than the default `minWidth`. -/
def wideState : ContainerState := { x := 0, y := 0, width := 350, height := 50 }

/-- The spec's `??` (nullish coalescing) on an optional numeric field;
modelled from the spec: `minWidth ?? 10`, `maxWidth ?? ∞`. -/
def specNullish (o : Option ℚ) (d : ℚ) : ℚ := o.getD d

/-- Modelled from the spec: membership of an output width in
`[C.boundaries.minWidth ?? 10, C.boundaries.maxWidth ?? ∞]`. -/
def specWidthInterval (cfg : ContainerConfig) (w : ℚ) : Prop :=
  specNullish cfg.boundaries.minWidth 10 ≤ w ∧
  ∀ m, cfg.boundaries.maxWidth = some m → w ≤ m

/-- A parent-constrained config with default boundaries. -/
def parentCfg : ContainerConfig := mkConfig { constrainToParent := some true }

/-- An environment whose parent element measures `0 × 0`. -/
def zeroParentEnv : Env :=
  { viewportWidth := 1000, viewportHeight := 1000, parent := some (0, 0) }

/-- A small raw state, below the default minimum boundaries. -/
def smallState : ContainerState := { x := 1, y := 2, width := 5, height := 5 }

/-- A parent-constrained config with `minWidth = minHeight = 10`. -/
def c8Cfg : ContainerConfig :=
  mkConfig
    { constrainToParent := some true,
      boundaries := some { minWidth := some 10, minHeight := some 10 } }

/-- An environment whose parent element measures `100 × 100`. -/
def parent100Env : Env :=
  { viewportWidth := 1000, viewportHeight := 1000, parent := some (100, 100) }

/-- A raw state near the parent's right edge. -/
def nearEdgeState : ContainerState := { x := 95, y := 0, width := 50, height := 50 }

/-- A parent-constrained config with `minWidth = minHeight = 150`, larger
than the `100 × 100` parent. -/
def c10Cfg : ContainerConfig :=
  mkConfig
    { constrainToParent := some true,
      boundaries := some { minWidth := some 150, minHeight := some 150 } }

/-- A raw state whose constrained size (`150 × 150`) exceeds the parent. -/
def oversizeState : ContainerState := { x := 5, y := 5, width := 150, height := 150 }

/-- A viewport-only config with `minWidth = minHeight = 150`. -/
def c10ViewportCfg : ContainerConfig :=
  mkConfig { boundaries := some { minWidth := some 150, minHeight := some 150 } }

/-- A `100 × 100` viewport, smaller than the constrained container size. -/
def smallViewportEnv : Env :=
  { viewportWidth := 100, viewportHeight := 100, parent := some (50, 50) }

/-- A manager that installed the snapping plugin after construction. -/
def c5Manager : Manager :=
  usePlugin (mkManager initialDomState {}) ("SnappingPlugin")

/-- A manager constructed in `pinned` mode. -/
def pinnedManager : Manager := mkManager initialDomState { mode := some .pinned }

/-- The config produced from an empty user config (all defaults). -/
def defaultCfg : ContainerConfig := mkConfig {}

/-- A concrete edge-distance function: only the top edge is within reach. -/
def exDist : DockEdge → ℚ :=
  fun e => match e with
  | .top => 5
  | _ => 100

/-! ### Helper lemmas -/

lemma clamp_idem (v lo hi : ℚ) : clamp (clamp v lo hi) lo hi = clamp v lo hi := by
  unfold clamp
  rcases le_total v lo with h1 | h1 <;> rcases le_total v hi with h2 | h2 <;>
    rcases le_total lo hi with h3 | h3 <;>
      simp [max_def, min_def] <;> split_ifs <;> linarith

lemma clampO_idem (v lo : ℚ) (hi : Option ℚ) :
    clampO (clampO v lo hi) lo hi = clampO v lo hi := by
  cases hi with
  | none => simp [clampO, max_assoc]
  | some h => simpa [clampO] using clamp_idem v lo h

lemma le_clampO (v lo : ℚ) (hi : Option ℚ) (h : ∀ m, hi = some m → lo ≤ m) :
    lo ≤ clampO v lo hi := by
  cases hi with
  | none => exact le_max_right v lo
  | some m => exact le_min (le_max_right v lo) (h m rfl)

lemma clampO_le_some (v lo m : ℚ) : clampO v lo (some m) ≤ m := min_le_right _ _

lemma clamp_of_max_lt (v lo hi : ℚ) (h : hi < lo) : clamp v lo hi = hi := by
  unfold clamp
  exact min_eq_right (le_trans h.le (le_max_right v lo))

lemma clamp_nonneg (v hi : ℚ) (h : 0 ≤ hi) : 0 ≤ clamp v 0 hi := by
  unfold clamp
  exact le_min (le_max_right v 0) h

lemma resolve_of_no_parent (cfg : ContainerConfig) (env : Env) (s : ContainerState)
    (h : cfg.constrainToParent = false) :
    resolve cfg env s =
      { x := clamp s.x 0
          (env.viewportWidth - clampO s.width (effMinWidth cfg) (effMaxWidth cfg))
        y := clamp s.y 0
          (env.viewportHeight - clampO s.height (effMinHeight cfg) (effMaxHeight cfg))
        width := clampO s.width (effMinWidth cfg) (effMaxWidth cfg)
        height := clampO s.height (effMinHeight cfg) (effMaxHeight cfg) } := by
  simp [resolve, shouldConstrainToViewport, h]

lemma map_fst_mapIf (r : Registry) (e : DockEdge) (mgr : ℕ) :
    (r.map (fun p => if p.1 = e then (e, mgr) else p)).map Prod.fst = r.map Prod.fst := by
  induction r with
  | nil => rfl
  | cons p rest ih =>
    simp only [List.map_cons, ih, List.cons.injEq, and_true]
    split <;> simp_all

lemma regHas_false_iff (r : Registry) (e : DockEdge) :
    regHas r e = false ↔ e ∉ r.map Prod.fst := by
  induction r with
  | nil => simp [regHas]
  | cons p rest ih =>
    by_cases hp : p.1 = e <;> simp [regHas, hp] at ih ⊢
    tauto

lemma nodup_regSet (r : Registry) (e : DockEdge) (mgr : ℕ) (h : keysNodup r) :
    keysNodup (regSet r e mgr) := by
  unfold regSet
  split
  · unfold keysNodup
    rw [map_fst_mapIf]
    exact h
  · rename_i hc
    rw [Bool.not_eq_true] at hc
    have he : e ∉ r.map Prod.fst := (regHas_false_iff r e).mp hc
    unfold keysNodup
    rw [List.map_append]
    simp only [List.map_cons, List.map_nil]
    rw [List.nodup_append]
    refine ⟨h, List.nodup_singleton e, ?_⟩
    intro a ha hb
    rw [List.mem_singleton] at hb
    subst hb
    exact he ha

lemma nodup_regDelete (r : Registry) (e : DockEdge) (h : keysNodup r) :
    keysNodup (regDelete r e) := by
  unfold keysNodup regDelete
  exact h.sublist ((List.filter_sublist r).map Prod.fst)

lemma nodup_tryDock (r : Registry) (dist : DockEdge → ℚ) (th : ℚ) (mgr : ℕ)
    (h : keysNodup r) : keysNodup (tryDock r dist th mgr) := by
  unfold tryDock
  cases pickEdge r dist th with
  | none => exact h
  | some e => exact nodup_regSet r e mgr h

lemma nodup_undock (r : Registry) (e : DockEdge) (mgr : ℕ) (h : keysNodup r) :
    keysNodup (undock r e mgr) := by
  unfold undock
  split
  · exact nodup_regDelete r e h
  · exact h

lemma pickEdgeAux_free (r : Registry) (dist : DockEdge → ℚ) :
    ∀ (l : List DockEdge) (best : Option DockEdge) (minD : ℚ) (e : DockEdge),
      pickEdgeAux r dist l best minD = some e →
      best = some e ∨ regHas r e = false := by
  intro l
  induction l with
  | nil =>
    intro best minD e h
    exact Or.inl h
  | cons a rest ih =>
    intro best minD e h
    rw [pickEdgeAux] at h
    split at h
    · rename_i hc
      rcases ih (some a) (dist a) e h with h2 | h2
      · cases h2
        exact Or.inr hc.2
      · exact Or.inr h2
    · exact ih best minD e h

/-! ### Claims -/

/-- C2: if the mode is `pinned`, invoking the drag-start handler leaves the
container state (indeed the whole manager, so also the Idle interaction flag
and the absence of document-level move/end listeners) unchanged, emits no
`dragStart` event, and lets no error escape to the caller. -/
theorem claim_C2 (m : Manager) (clientX clientY : ℚ) (h : m.mode = .pinned) :
    onDragStart m clientX clientY = { manager := m, emitted := [], error := none } := by
  simp [onDragStart, h]

/-- Witness for C2 at a concrete pinned manager. -/
theorem claim_C2_witness :
    pinnedManager.mode = .pinned ∧
    onDragStart pinnedManager 3 4
      = { manager := pinnedManager, emitted := [], error := none } :=
  ⟨by decide, claim_C2 pinnedManager 3 4 (by decide)⟩

/-- C4 counterexample: with `constrainToParent` enabled and a `0 × 0` parent
rectangle, the constraint resolver is not a no-op on its input: the boundary
step still clamps the raw `5 × 5` size up to the default `300 × 45` minima. -/
theorem claim_C4_counterexample :
    zeroParentEnv.parent = some (0, 0) ∧
    parentCfg.constrainToParent = true ∧
    resolve parentCfg zeroParentEnv smallState ≠ smallState ∧
    (resolve parentCfg zeroParentEnv smallState).width = 300 := by
  refine ⟨rfl, rfl, ?_, ?_⟩ <;>
    norm_num [resolve, parentCfg, zeroParentEnv, smallState, mkConfig,
      mergeBoundaries, mergeField, clampO, clamp, effMinWidth, effMinHeight,
      effMaxWidth, effMaxHeight, jsOr, jsOrInf, shouldConstrainToViewport,
      constrainToParentStep, max_def, min_def, ContainerState.ext_iff]

/-- C4 amended: when the parent element's measured rectangle has zero width
or zero height, the parent-constraint step (alone) returns its input state
unchanged; the boundary and viewport clamps of the resolver still apply. -/
theorem claim_C4 (env : Env) (s : ContainerState) (pw ph : ℚ)
    (hp : env.parent = some (pw, ph)) (hz : pw = 0 ∨ ph = 0) :
    constrainToParentStep env s = s := by
  unfold constrainToParentStep
  rw [hp]
  exact if_pos hz

/-- Witness for C4 at the concrete zero-size parent. -/
theorem claim_C4_witness :
    constrainToParentStep zeroParentEnv smallState = smallState :=
  claim_C4 zeroParentEnv smallState 0 0 rfl (Or.inl rfl)

/-- C5: a manager that installs the snapping plugin after construction (the
only order the API permits, since `use()` needs the constructed instance)
nevertheless has its default drag-start listeners bound: `bindEvents()` ran
in the constructor when `installedPlugins` was still empty, so the
`hasPluginByName('SnappingPlugin')` check could not trigger. -/
theorem claim_C5 :
    hasPluginByName c5Manager ("SnappingPlugin") = true ∧
    c5Manager.defaultDragBound = true ∧
    (mkManager initialDomState {}).installedPlugins = [] ∧
    (mkManager initialDomState {}).defaultDragBound = true := by
  decide

/-- C6: for a `nw` resize and any pointer delta, the state written by the
gesture moves `x`/`y` by exactly the negative of the width/height delta, so
the south-east corner of the written state stays fixed. -/
theorem claim_C6 (startState : ContainerState) (deltaX deltaY : ℚ) :
    (calculateResizeState startState deltaX deltaY .nw).x - startState.x
      = -((calculateResizeState startState deltaX deltaY .nw).width - startState.width) ∧
    (calculateResizeState startState deltaX deltaY .nw).y - startState.y
      = -((calculateResizeState startState deltaX deltaY .nw).height - startState.height) := by
  constructor <;> simp [calculateResizeState]

/-- C9: every reachable state of the shared docked-containers registry keeps
at most one container per edge (its keys are duplicate-free), and the
drag-end edge search only ever selects an edge that is not already present
in the registry. -/
theorem claim_C9 (r : Registry) (h : ReachableReg r) :
    keysNodup r ∧
    ∀ (dist : DockEdge → ℚ) (th : ℚ) (e : DockEdge),
      pickEdge r dist th = some e → regHas r e = false := by
  constructor
  · induction h with
    | init => simp [keysNodup]
    | dock dist th mgr _ ih => exact nodup_tryDock _ dist th mgr ih
    | undock e mgr _ ih => exact nodup_undock _ e mgr ih
  · intro dist th e hp
    unfold pickEdge at hp
    rcases pickEdgeAux_free r dist _ none th e hp with h2 | h2
    · cases h2
    · exact h2

/-- Witness for C9 at a concrete reachable registry (one successful dock
from the empty registry). -/
theorem claim_C9_witness :
    keysNodup (tryDock [] exDist 30 5) ∧
    ∀ (dist : DockEdge → ℚ) (th : ℚ) (e : DockEdge),
      pickEdge (tryDock [] exDist 30 5) dist th = some e →
      regHas (tryDock [] exDist 30 5) e = false :=
  claim_C9 _ (ReachableReg.dock exDist 30 5 ReachableReg.init)

/-- C1 counterexample: after `setState({width: 50, height: 50})` on the
manager constructed with boundaries `{200, 150, 500, 400}`, the state
observed through the manager (`getState()`) still reports the raw
`50 × 50`, not the minimum boundaries. -/
theorem claim_C1_counterexample :
    getState c1Manager = { x := 0, y := 0, width := 50, height := 50 } ∧
    (getState c1Manager).width ≠ 200 ∧
    (getState c1Manager).height ≠ 150 := by
  decide

/-- C1 amended: the derived constrained state (written to the DOM and
emitted on `stateChange`) has width 200 and height 150, while `getState()`
returns the raw `50 × 50`. -/
theorem claim_C1 :
    (getState c1Manager).width = 50 ∧
    (getState c1Manager).height = 50 ∧
    constrainedState bigEnv c1Manager = { x := 0, y := 0, width := 200, height := 150 } := by
  refine ⟨by decide, by decide, ?_⟩
  norm_num [constrainedState, resolve, c1Manager, c1User, mkManager, mkConfig,
    mergeBoundaries, mergeField, bindEvents, hasPluginByName, setState, getState,
    bigEnv, initialDomState, clampO, clamp, effMinWidth, effMinHeight,
    effMaxWidth, effMaxHeight, jsOr, jsOrInf, shouldConstrainToViewport,
    constrainToParentStep, max_def, min_def, ContainerState.ext_iff]

/-- C3 counterexample: with `boundaries.maxWidth = 0` the resolver's output
width is 350, which does not lie in the spec's claimed interval
`[minWidth ?? 10, maxWidth ?? ∞] = [10, 0]` — the code reads the bound with
`||`, so a `0` max is treated as absent, not as an upper bound. -/
theorem claim_C3_counterexample :
    maxWidthZeroCfg.boundaries.maxWidth = some 0 ∧
    (resolve maxWidthZeroCfg bigEnv wideState).width = 350 ∧
    ¬ specWidthInterval maxWidthZeroCfg ((resolve maxWidthZeroCfg bigEnv wideState).width) := by
  have hw : (resolve maxWidthZeroCfg bigEnv wideState).width = 350 := by
    norm_num [resolve, maxWidthZeroCfg, bigEnv, wideState, mkConfig,
      mergeBoundaries, mergeField, clampO, clamp, effMinWidth, effMinHeight,
      effMaxWidth, effMaxHeight, jsOr, jsOrInf, shouldConstrainToViewport,
      constrainToParentStep, max_def, min_def]
  refine ⟨rfl, hw, ?_⟩
  rw [hw]
  intro hcontra
  have h0 : (350 : ℚ) ≤ 0 := hcontra.2 0 rfl
  norm_num at h0

/-- C3 amended: when the parent step is disabled and each effective upper
bound (read with JavaScript `||`, so `0`/absent means unbounded) is at least
the corresponding effective lower bound, the resolver's output width lies in
`[minWidth || 10, maxWidth || ∞]` and its height in
`[minHeight || 10, maxHeight || ∞]`; the effective lower width bound is 10
exactly when `minWidth` is absent, `0`, or itself `10`. -/
theorem claim_C3 (cfg : ContainerConfig) (env : Env) (s : ContainerState)
    (hparent : cfg.constrainToParent = false)
    (hw : ∀ m, effMaxWidth cfg = some m → effMinWidth cfg ≤ m)
    (hh : ∀ m, effMaxHeight cfg = some m → effMinHeight cfg ≤ m) :
    (effMinWidth cfg ≤ (resolve cfg env s).width ∧
      ∀ m, effMaxWidth cfg = some m → (resolve cfg env s).width ≤ m) ∧
    (effMinHeight cfg ≤ (resolve cfg env s).height ∧
      ∀ m, effMaxHeight cfg = some m → (resolve cfg env s).height ≤ m) ∧
    (effMinWidth cfg = 10 ↔ cfg.boundaries.minWidth = none ∨
      cfg.boundaries.minWidth = some 0 ∨ cfg.boundaries.minWidth = some 10) := by
  rw [resolve_of_no_parent cfg env s hparent]
  refine ⟨⟨le_clampO _ _ _ hw, ?_⟩, ⟨le_clampO _ _ _ hh, ?_⟩, ?_⟩
  · intro m hm
    simp only [hm]
    exact clampO_le_some _ _ _
  · intro m hm
    simp only [hm]
    exact clampO_le_some _ _ _
  · unfold effMinWidth jsOr
    cases hmw : cfg.boundaries.minWidth with
    | none => simp
    | some v =>
      by_cases hv : v = 0 <;> simp [hv]

/-- Witness for C3 at the default config (no parent constraint, no upper
bounds). -/
theorem claim_C3_witness :
    (effMinWidth defaultCfg ≤ (resolve defaultCfg bigEnv wideState).width ∧
      ∀ m, effMaxWidth defaultCfg = some m → (resolve defaultCfg bigEnv wideState).width ≤ m) ∧
    (effMinHeight defaultCfg ≤ (resolve defaultCfg bigEnv wideState).height ∧
      ∀ m, effMaxHeight defaultCfg = some m → (resolve defaultCfg bigEnv wideState).height ≤ m) ∧
    (effMinWidth defaultCfg = 10 ↔ defaultCfg.boundaries.minWidth = none ∨
      defaultCfg.boundaries.minWidth = some 0 ∨ defaultCfg.boundaries.minWidth = some 10) :=
  claim_C3 defaultCfg bigEnv wideState rfl
    (by
      intro m hm
      simp [defaultCfg, effMaxWidth, jsOrInf, mkConfig, mergeBoundaries] at hm)
    (by
      intro m hm
      simp [defaultCfg, effMaxHeight, jsOrInf, mkConfig, mergeBoundaries] at hm)

/-- C7: the snapping plugin's grid rounding maps a raw delta of 44 at step
30 to a written delta of 30 and a raw delta of 46 to 60; in general, with
snapping enabled (and no plugin-level viewport clamp), the state written by
the plugin's drag-move is `start + round(delta / step) * step` on each axis
(after the axis lock of the direction resolver). -/
theorem claim_C7 (startState : ContainerState)
    (startX startY clientX clientY step vw vh : ℚ) (dirMode : DirectionMode) :
    snapToGrid 44 30 = 30 ∧ snapToGrid 46 30 = 60 ∧
    snapDragMove startState startX startY clientX clientY dirMode true step false vw vh =
      { x := startState.x +
          snapToGrid ((directionResolver dirMode startX startY clientX clientY).1 - startX) step
        y := startState.y +
          snapToGrid ((directionResolver dirMode startX startY clientX clientY).2 - startY) step
        width := startState.width
        height := startState.height } := by
  refine ⟨?_, ?_, ?_⟩
  · unfold snapToGrid jsRound
    have h : ⌊(44 : ℚ) / 30 + 1 / 2⌋ = 1 := by
      rw [Int.floor_eq_iff]
      norm_num
    rw [h]
    norm_num
  · unfold snapToGrid jsRound
    have h : ⌊(46 : ℚ) / 30 + 1 / 2⌋ = 2 := by
      rw [Int.floor_eq_iff]
      norm_num
    rw [h]
    norm_num
  · simp [snapDragMove, applySnapping]

/-- C8 counterexample: with the parent constraint active (100 × 100 parent,
`minWidth = 10`), resolving `{x: 95, y: 0, w: 50, h: 50}` yields width 5
(the parent width clamp undercuts the minimum), and resolving that output
again re-raises the width to 10 — the resolver is not idempotent. -/
theorem claim_C8_counterexample :
    resolve c8Cfg parent100Env nearEdgeState
      = { x := 50, y := 0, width := 5, height := 50 } ∧
    resolve c8Cfg parent100Env (resolve c8Cfg parent100Env nearEdgeState)
      = { x := 50, y := 0, width := 10, height := 50 } ∧
    resolve c8Cfg parent100Env (resolve c8Cfg parent100Env nearEdgeState)
      ≠ resolve c8Cfg parent100Env nearEdgeState := by
  have h1 : resolve c8Cfg parent100Env nearEdgeState
      = { x := 50, y := 0, width := 5, height := 50 } := by
    norm_num [resolve, c8Cfg, parent100Env, nearEdgeState, mkConfig,
      mergeBoundaries, mergeField, clampO, clamp, effMinWidth, effMinHeight,
      effMaxWidth, effMaxHeight, jsOr, jsOrInf, shouldConstrainToViewport,
      constrainToParentStep, max_def, min_def, ContainerState.ext_iff]
  have h2 : resolve c8Cfg parent100Env { x := 50, y := 0, width := 5, height := 50 }
      = { x := 50, y := 0, width := 10, height := 50 } := by
    norm_num [resolve, c8Cfg, parent100Env, mkConfig,
      mergeBoundaries, mergeField, clampO, clamp, effMinWidth, effMinHeight,
      effMaxWidth, effMaxHeight, jsOr, jsOrInf, shouldConstrainToViewport,
      constrainToParentStep, max_def, min_def, ContainerState.ext_iff]
  refine ⟨h1, by rw [h1]; exact h2, ?_⟩
  rw [h1, h2]
  simp [ContainerState.ext_iff]

/-- C8 amended: the resolver is idempotent whenever the parent constraint is
not active (`constrainToParent = false`), i.e. for the boundary + viewport
pipeline. -/
theorem claim_C8 (cfg : ContainerConfig) (env : Env) (s : ContainerState)
    (h : cfg.constrainToParent = false) :
    resolve cfg env (resolve cfg env s) = resolve cfg env s := by
  rw [resolve_of_no_parent cfg env s h, resolve_of_no_parent cfg env _ h]
  ext <;> simp [clampO_idem, clamp_idem]

/-- Witness for C8 at the default config. -/
theorem claim_C8_witness :
    resolve defaultCfg bigEnv (resolve defaultCfg bigEnv wideState)
      = resolve defaultCfg bigEnv wideState :=
  claim_C8 defaultCfg bigEnv wideState rfl

/-- C10 counterexample: with the parent constraint active and a boundary-
constrained size of 150 exceeding the 100 × 100 parent, the parent step's
position clamp (guarded by `Math.max(0, ·)`) pins x to 0 instead of
assigning the negative value `dimension - size`. -/
theorem claim_C10_counterexample :
    parent100Env.parent = some (100, 100) ∧
    clampO oversizeState.width (effMinWidth c10Cfg) (effMaxWidth c10Cfg) = 150 ∧
    (resolve c10Cfg parent100Env oversizeState).x = 0 ∧
    ¬ ((resolve c10Cfg parent100Env oversizeState).x < 0) := by
  have hx : (resolve c10Cfg parent100Env oversizeState).x = 0 := by
    norm_num [resolve, c10Cfg, parent100Env, oversizeState, mkConfig,
      mergeBoundaries, mergeField, clampO, clamp, effMinWidth, effMinHeight,
      effMaxWidth, effMaxHeight, jsOr, jsOrInf, shouldConstrainToViewport,
      constrainToParentStep, max_def, min_def]
  refine ⟨rfl, ?_, hx, by rw [hx]; norm_num⟩
  norm_num [c10Cfg, oversizeState, mkConfig, mergeBoundaries, mergeField,
    clampO, clamp, effMinWidth, effMaxWidth, jsOr, jsOrInf, max_def, min_def]

/-- C10 amended: `clamp(value, min, max)` returns `max` whenever
`max < min`; consequently, when the viewport clamp is active and the
boundary-constrained width exceeds the viewport width, the resolver assigns
the negative `viewportWidth - width` to x; in the parent step, by contrast,
the position clamp's upper bound is guarded by `max(0, ·)`, so the resulting
position is never negative. -/
theorem claim_C10 (v lo hi : ℚ) (h : hi < lo)
    (cfg : ContainerConfig) (env : Env) (s : ContainerState)
    (hcp : cfg.constrainToParent = false)
    (hbig : env.viewportWidth < clampO s.width (effMinWidth cfg) (effMaxWidth cfg)) :
    clamp v lo hi = hi ∧
    (resolve cfg env s).x
      = env.viewportWidth - clampO s.width (effMinWidth cfg) (effMaxWidth cfg) ∧
    (resolve cfg env s).x < 0 ∧
    ∀ pw ph, env.parent = some (pw, ph) → pw ≠ 0 → ph ≠ 0 →
      0 ≤ (constrainToParentStep env s).x ∧ 0 ≤ (constrainToParentStep env s).y := by
  have hneg : env.viewportWidth - clampO s.width (effMinWidth cfg) (effMaxWidth cfg) < 0 := by
    linarith
  have hx : (resolve cfg env s).x
      = env.viewportWidth - clampO s.width (effMinWidth cfg) (effMaxWidth cfg) := by
    rw [resolve_of_no_parent cfg env s hcp]
    exact clamp_of_max_lt _ _ _ hneg
  refine ⟨clamp_of_max_lt v lo hi h, hx, by rw [hx]; exact hneg, ?_⟩
  intro pw ph hp hpw hph
  have hcond : ¬ (pw = 0 ∨ ph = 0) := by tauto
  simp only [constrainToParentStep, hp, if_neg hcond]
  exact ⟨clamp_nonneg _ _ (le_max_left _ _), clamp_nonneg _ _ (le_max_left _ _)⟩

/-- Witness for C10: concrete clamp bounds `hi = 3 < lo = 5`, a 100 × 100
viewport smaller than the 150-wide constrained container. -/
theorem claim_C10_witness :
    clamp 7 5 3 = 3 ∧
    (resolve c10ViewportCfg smallViewportEnv oversizeState).x
      = smallViewportEnv.viewportWidth -
          clampO oversizeState.width (effMinWidth c10ViewportCfg) (effMaxWidth c10ViewportCfg) ∧
    (resolve c10ViewportCfg smallViewportEnv oversizeState).x < 0 ∧
    ∀ pw ph, smallViewportEnv.parent = some (pw, ph) → pw ≠ 0 → ph ≠ 0 →
      0 ≤ (constrainToParentStep smallViewportEnv oversizeState).x ∧
      0 ≤ (constrainToParentStep smallViewportEnv oversizeState).y :=
  claim_C10 7 5 3 (by norm_num) c10ViewportCfg smallViewportEnv oversizeState rfl
    (by
      norm_num [c10ViewportCfg, smallViewportEnv, oversizeState, mkConfig,
        mergeBoundaries, mergeField, clampO, clamp, effMinWidth, effMaxWidth,
        jsOr, jsOrInf, max_def, min_def])

end DRC
